import Mathlib

/-
Verification of the data-preparation and aggregation logic of the
CORD-19 metadata explorer (analysis.py and app.py).

A pandas DataFrame is modelled as a list of rows carrying the four
source columns the scripts use (title, abstract, journal, publish_time)
together with the derived columns (parsed date, year, abstract word
count).  A missing cell (NaN / NaT) is an Option that is none.
Library calls appearing in the scripts (str.split, pandas to_datetime,
dropna, fillna, value_counts, sort_index, head) are modelled as
executable Lean functions over these lists.
-/

/-! ### Model of the Python and pandas primitives used by the scripts -/

/-- Accumulator pass behind pyTokens: cur holds the reversed characters of
the token currently being read. -/
def pyTokensAux (cur : List Char) : List Char → List (List Char)
  | [] => if cur.isEmpty then [] else [cur.reverse]
  | c :: cs =>
    if c.isWhitespace then
      if cur.isEmpty then pyTokensAux [] cs
      else cur.reverse :: pyTokensAux [] cs
    else pyTokensAux (c :: cur) cs

/-- Models Python str.split() with no argument: split on runs of whitespace,
producing no empty tokens. -/
def pyTokens (l : List Char) : List (List Char) := pyTokensAux [] l

/-- Models len(x.split()) from the abstract_word_count derivation in both
analysis.py clean_data and app.py load_data. -/
def wordCount (s : String) : Nat := (pyTokens s.toList).length

/-- Splits a character list at every occurrence of sep, keeping empty
fields, as Python str.split(sep) does. -/
def splitOnChar (sep : Char) : List Char → List (List Char)
  | [] => [[]]
  | c :: cs =>
    if c = sep then [] :: splitOnChar sep cs
    else
      match splitOnChar sep cs with
      | [] => [[c]]
      | f :: rest => (c :: f) :: rest

/-- Reads a run of decimal digits, failing on any non-digit character. -/
def parseNatAux (acc : Nat) : List Char → Option Nat
  | [] => some acc
  | c :: cs => if c.isDigit then parseNatAux (acc * 10 + (c.toNat - 48)) cs else none

/-- Parses a non-empty all-digit character list as a natural number. -/
def parseNatDigits (l : List Char) : Option Nat :=
  match l with
  | [] => none
  | _ :: _ => parseNatAux 0 l

/-- A calendar date as produced by the publish_time parsing step. -/
structure Date where
  year : Int
  month : Nat
  day : Nat
deriving DecidableEq

/-- Models the pandas to_datetime call with errors coerce used by
analysis.py clean_data and app.py load_data, restricted to ISO
YYYY-MM-DD inputs: a string of any other shape coerces to an absent
date instead of raising. -/
def parseDate (s : String) : Option Date :=
  match splitOnChar (Char.ofNat 45) s.toList with
  | [y, m, d] =>
    match parseNatDigits y, parseNatDigits m, parseNatDigits d with
    | some yn, some mn, some dn =>
      if 1 ≤ mn && mn ≤ 12 && 1 ≤ dn && dn ≤ 31 then
        some { year := (yn : Int), month := mn, day := dn }
      else none
    | _, _, _ => none
  | _ => none

/-- Models the pandas Series.value_counts() call: one entry per distinct
value (absent cells are already excluded by the callers), counted and
sorted by count descending; tie order among equal counts is arbitrary in
pandas and fixed to one order here. -/
def value_counts {α : Type} [DecidableEq α] (l : List α) : List (α × Nat) :=
  List.insertionSort (fun a b => b.2 ≤ a.2) (l.dedup.map (fun k => (k, l.count k)))

/-- Models Series.sort_index() on a value_counts result: reorder the
entries by key ascending. -/
def sort_index {α : Type} [LinearOrder α] (l : List (α × Nat)) : List (α × Nat) :=
  List.insertionSort (fun a b => a.1 ≤ b.1) l

/-! ### Data model: one row of the metadata table -/

/-- One raw CSV record, restricted to the four columns the scripts use. -/
structure RawRow where
  title : Option String
  abstract : Option String
  journal : Option String
  publish_time : Option String
deriving DecidableEq

/-- A row after the publish_time parse and the year derivation. -/
structure Row where
  title : Option String
  abstract : Option String
  journal : Option String
  publish_time : Option Date
  year : Option Int
deriving DecidableEq

/-- A row once the abstract_word_count column exists. -/
structure CleanRow where
  title : Option String
  abstract : Option String
  journal : Option String
  publish_time : Option Date
  year : Option Int
  abstract_word_count : Nat
deriving DecidableEq

/-- Models the two column assignments shared by analysis.py clean_data and
app.py load_data: publish_time becomes to_datetime(publish_time,
errors coerce) and year becomes publish_time.dt.year (absent when the
date is absent). -/
def deriveYear (r : RawRow) : Row :=
  { title := r.title, abstract := r.abstract, journal := r.journal,
    publish_time := r.publish_time.bind parseDate,
    year := (r.publish_time.bind parseDate).map Date.year }

/-- The row predicate behind dropna(subset title, year) in clean_data. -/
def hasTitleAndYear (r : Row) : Bool := r.title.isSome && r.year.isSome

/-- Models the abstract_word_count assignment
df.abstract.fillna(empty).apply(lambda x: len(x.split())). -/
def addWordCount (r : Row) : CleanRow :=
  { title := r.title, abstract := r.abstract, journal := r.journal,
    publish_time := r.publish_time, year := r.year,
    abstract_word_count := wordCount (r.abstract.getD "") }

/-! ### The two entry points -/

namespace Analysis

/-- Models clean_data from analysis.py: parse publish_time, derive year,
drop rows missing title or year, then derive abstract_word_count.  The
second component is the dropped-row count the function reports
(before minus after). -/
def clean_data (df : List RawRow) : List CleanRow × Nat :=
  (((df.map deriveYear).filter hasTitleAndYear).map addWordCount,
   (df.map deriveYear).length - ((df.map deriveYear).filter hasTitleAndYear).length)

end Analysis

namespace App

/-- Models load_data from app.py: parse publish_time, derive year and
abstract_word_count, with no row ever dropped. -/
def load_data (df : List RawRow) : List CleanRow :=
  (df.map deriveYear).map addWordCount

/-- Models the slider mask (df.year >= lo) & (df.year <= hi): a pandas
comparison against an absent year yields False, so such a row is never
selected. -/
def yearInRange (lo hi : Int) (r : CleanRow) : Bool :=
  match r.year with
  | some y => decide (lo ≤ y) && decide (y ≤ hi)
  | none => false

/-- Models df.loc(mask): the filtered subset the app renders. -/
def filterByYear (lo hi : Int) (df : List CleanRow) : List CleanRow :=
  df.filter (yearInRange lo hi)

end App

/-! ### The aggregate views (identical expressions in both scripts) -/

/-- The year column of a table, absent cells excluded (pandas drops NaN
in value_counts). -/
def yearsOf (df : List CleanRow) : List Int := df.filterMap (fun r => r.year)

/-- The journal column of a table, absent cells excluded. -/
def journalsOf (df : List CleanRow) : List String := df.filterMap (fun r => r.journal)

/-- Models df.year.value_counts().sort_index(), the publications-by-year
view of analysis.py basic_analysis and of app.py main. -/
def counts_year (df : List CleanRow) : List (Int × Nat) :=
  sort_index (value_counts (yearsOf df))

/-- Models df.journal.value_counts().head(10), the top-journals view of
analysis.py basic_analysis and of app.py main. -/
def top_journals (df : List CleanRow) : List (String × Nat) :=
  (value_counts (journalsOf df)).take 10

/-! ### Concrete records used as test inputs -/

/-- A record with an absent title but a parseable publish_time. -/
def rawNoTitle : RawRow :=
  { title := none, abstract := none, journal := none, publish_time := some "2020-03-01" }

/-- A record with a present title and a parseable publish_time. -/
def rawGoodDate : RawRow :=
  { title := some "t", abstract := none, journal := none, publish_time := some "2020-03-01" }

/-- A record with a present title whose publish_time does not parse. -/
def rawBadDate : RawRow :=
  { title := some "t", abstract := none, journal := none, publish_time := some "not-a-date" }

/-- A cleaned row shape used to exercise the aggregate views. -/
def rowJ (j : Option String) (y : Option Int) : CleanRow :=
  { title := some "t", abstract := none, journal := j, publish_time := none,
    year := y, abstract_word_count := 0 }

/-- A small cleaned table with two distinct journals, one record lacking
a journal, and two distinct years. -/
def dfSmall : List CleanRow :=
  [rowJ (some "A") (some 2020), rowJ (some "B") (some 2020),
   rowJ (some "A") (some 2021), rowJ none (some 2021)]

/-! ### Facts about the value_counts model shared by several claims -/

theorem value_counts_perm {α : Type} [DecidableEq α] (l : List α) :
    (value_counts l).Perm (l.dedup.map (fun k => (k, l.count k))) :=
  List.perm_insertionSort _ _

theorem mem_value_counts {α : Type} [DecidableEq α] {l : List α} {p : α × Nat} :
    p ∈ value_counts l ↔ p ∈ l.dedup.map (fun k => (k, l.count k)) :=
  (value_counts_perm l).mem_iff

theorem value_counts_length {α : Type} [DecidableEq α] (l : List α) :
    (value_counts l).length = l.dedup.length := by
  rw [(value_counts_perm l).length_eq, List.length_map]

theorem value_counts_keys_perm {α : Type} [DecidableEq α] (l : List α) :
    ((value_counts l).map Prod.fst).Perm l.dedup := by
  have h := (value_counts_perm l).map Prod.fst
  rwa [List.map_map, show (Prod.fst ∘ fun k => (k, l.count k)) = id from rfl,
    List.map_id] at h

theorem value_counts_keys_nodup {α : Type} [DecidableEq α] (l : List α) :
    ((value_counts l).map Prod.fst).Nodup :=
  (value_counts_keys_perm l).symm.nodup (List.nodup_dedup l)

theorem mem_value_counts_keys {α : Type} [DecidableEq α] {l : List α} {a : α} :
    a ∈ (value_counts l).map Prod.fst ↔ a ∈ l := by
  rw [(value_counts_keys_perm l).mem_iff, List.mem_dedup]

theorem value_counts_sorted {α : Type} [DecidableEq α] (l : List α) :
    List.Sorted (fun a b => b.2 ≤ a.2) (value_counts l) :=
  @List.sorted_insertionSort (α × Nat) _ _ ⟨fun a b => Nat.le_total b.2 a.2⟩
    ⟨fun _ _ _ h1 h2 => Nat.le_trans h2 h1⟩ _

theorem value_counts_snd {α : Type} [DecidableEq α] {l : List α} {p : α × Nat}
    (h : p ∈ value_counts l) : p.2 = l.count p.1 := by
  rw [mem_value_counts] at h
  obtain ⟨k, _, rfl⟩ := List.mem_map.1 h
  rfl

theorem count_filterMap_eq_countP {β α : Type} [DecidableEq α]
    (f : β → Option α) (y : α) (l : List β) :
    (l.filterMap f).count y = l.countP (fun r => f r == some y) := by
  induction l with
  | nil => rfl
  | cons b l ih =>
    cases hf : f b with
    | none => simp [List.filterMap_cons, hf, List.countP_cons, ih]
    | some a =>
      by_cases hay : a = y <;>
        simp [List.filterMap_cons, hf, List.countP_cons, List.count_cons, ih, hay]

/-! ### Claim theorems -/

/-- C1, as stated, is false: the interactive load keeps a record whose
title is absent, while the batch Loader/Cleaner drops it, so the two
tables differ on a one-row input whose title is absent. -/
theorem claim_C1_counterexample :
    App.load_data [rawNoTitle] ≠ (Analysis.clean_data [rawNoTitle]).1 := by
  decide

/-- C1 (amended): the interactive load agrees with the batch
Loader/Cleaner pipeline up to the dropping step, which app.py load_data
does not perform: for every input table, restricting the interactive
table to the records with present title and year yields exactly the
batch pipeline table. -/
theorem claim_C1 (df : List RawRow) :
    (App.load_data df).filter (fun r => r.title.isSome && r.year.isSome)
      = (Analysis.clean_data df).1 := by
  unfold App.load_data Analysis.clean_data
  rw [List.filter_map]
  rfl

/-- C4: the publish_time parse is total (it returns an Option instead of
raising), the derived year is the calendar year of the parsed date and
is absent exactly when the parsed date is absent; the date 2020-03-01
parses to year 2020 while the string not-a-date coerces to an absent
date, whose row the Cleaner then drops. -/
theorem claim_C4 (r : RawRow) :
    (deriveYear r).year = ((deriveYear r).publish_time).map Date.year ∧
    ((deriveYear r).year = none ↔ (deriveYear r).publish_time = none) ∧
    parseDate "2020-03-01" = some { year := 2020, month := 3, day := 1 } ∧
    (deriveYear rawGoodDate).year = some 2020 ∧
    parseDate "not-a-date" = none ∧
    (Analysis.clean_data [rawBadDate]).1 = [] := by
  refine ⟨rfl, ?_, by decide, by decide, by decide, by decide⟩
  simp only [deriveYear]
  cases r.publish_time.bind parseDate <;> simp

/-- C5: the dropped-row count reported by clean_data equals the number of
rows before cleaning minus the number after, and equals the number of
input records whose title or derived year is absent. -/
theorem claim_C5 (df : List RawRow) :
    (Analysis.clean_data df).2 = df.length - (Analysis.clean_data df).1.length ∧
    (Analysis.clean_data df).2
      = (df.filter (fun r => !(hasTitleAndYear (deriveYear r)))).length := by
  have hsplit := List.length_eq_length_filter_add (l := df)
    (fun r => hasTitleAndYear (deriveYear r))
  have hcomm : (df.map deriveYear).filter hasTitleAndYear
      = (df.filter (fun r => hasTitleAndYear (deriveYear r))).map deriveYear := by
    rw [List.filter_map]; rfl
  constructor
  · unfold Analysis.clean_data
    simp [List.length_map]
  · unfold Analysis.clean_data
    simp only [hcomm, List.length_map]
    omega

/-- C6: the year-range filter of app.py is idempotent; filtering an
already-filtered table by the same closed interval changes nothing. -/
theorem claim_C6 (df : List CleanRow) (lo hi : Int) :
    App.filterByYear lo hi (App.filterByYear lo hi df) = App.filterByYear lo hi df := by
  unfold App.filterByYear
  rw [List.filter_filter]
  simp

/-- C7: the top-journals view has at most 10 entries, is ordered by count
descending with one entry per journal, and when fewer than 10 distinct
journals occur it lists exactly the distinct journals present. -/
theorem claim_C7 (df : List CleanRow) :
    (top_journals df).length ≤ 10 ∧
    List.Sorted (fun a b => b.2 ≤ a.2) (top_journals df) ∧
    ((top_journals df).map Prod.fst).Nodup ∧
    ((journalsOf df).dedup.length < 10 →
      (top_journals df).length = (journalsOf df).dedup.length ∧
      (∀ j : String, j ∈ (top_journals df).map Prod.fst ↔ j ∈ journalsOf df)) := by
  refine ⟨?_, ?_, ?_, ?_⟩
  · exact List.length_take_le 10 _
  · exact List.Pairwise.sublist (List.take_sublist _ _) (value_counts_sorted _)
  · unfold top_journals
    rw [List.map_take]
    exact List.Nodup.sublist (List.take_sublist _ _) (value_counts_keys_nodup _)
  · intro hlt
    have hle : (value_counts (journalsOf df)).length ≤ 10 := by
      rw [value_counts_length]; omega
    have htake : top_journals df = value_counts (journalsOf df) :=
      List.take_of_length_le hle
    constructor
    · rw [htake, value_counts_length]
    · intro j
      rw [htake, mem_value_counts_keys]

/-- C7 witness: on a concrete table with two distinct journals the view
has exactly two entries, one per distinct journal present. -/
theorem claim_C7_witness :
    (journalsOf dfSmall).dedup.length < 10 ∧
    ((top_journals dfSmall).length = (journalsOf dfSmall).dedup.length ∧
     ∀ j : String, j ∈ (top_journals dfSmall).map Prod.fst ↔ j ∈ journalsOf dfSmall) :=
  ⟨by decide, (claim_C7 dfSmall).2.2.2 (by decide)⟩

/-- C8: the year-frequency view is sorted ascending by year, has exactly
one entry per distinct year present in the table, and each count is the
number of records carrying that year. -/
theorem claim_C8 (df : List CleanRow) :
    List.Sorted (fun a b => a.1 ≤ b.1) (counts_year df) ∧
    ((counts_year df).map Prod.fst).Nodup ∧
    (∀ y : Int, y ∈ (counts_year df).map Prod.fst ↔ y ∈ yearsOf df) ∧
    (∀ p : Int × Nat, p ∈ counts_year df →
      p.2 = (df.filter (fun r => r.year == some p.1)).length) := by
  have hperm : (counts_year df).Perm (value_counts (yearsOf df)) :=
    List.perm_insertionSort _ _
  refine ⟨?_, ?_, ?_, ?_⟩
  · exact @List.sorted_insertionSort (Int × Nat) _ _ ⟨fun a b => Int.le_total a.1 b.1⟩
      ⟨fun _ _ _ h1 h2 => le_trans h1 h2⟩ _
  · exact ((hperm.map Prod.fst).symm).nodup (value_counts_keys_nodup _)
  · intro y
    rw [(hperm.map Prod.fst).mem_iff, mem_value_counts_keys]
  · intro p hp
    have hp2 : p ∈ value_counts (yearsOf df) := hperm.mem_iff.1 hp
    rw [value_counts_snd hp2]
    unfold yearsOf
    rw [count_filterMap_eq_countP, List.countP_eq_length_filter]

/-- C8 witness: on a concrete table the year 2020 entry counts exactly
the two records published in 2020. -/
theorem claim_C8_witness :
    ((2020 : Int), (2 : Nat)).2
      = (dfSmall.filter (fun r => r.year == some ((2020 : Int), (2 : Nat)).1)).length :=
  (claim_C8 dfSmall).2.2.2 ((2020 : Int), (2 : Nat)) (by decide)

/-- Records whose journal is absent contribute nothing to the journal
column view. -/
theorem journalsOf_filter (df : List CleanRow) :
    journalsOf (df.filter (fun r => r.journal.isSome)) = journalsOf df := by
  induction df with
  | nil => rfl
  | cons r df ih =>
    cases h : r.journal <;>
      simp [journalsOf, List.filter_cons, List.filterMap_cons, h] at ih ⊢ <;>
      simp [ih]

/-- C10: every entry of the top-journals view names a journal actually
present on some record, so no entry corresponds to an absent journal;
moreover discarding the absent-journal records beforehand leaves the
view unchanged. -/
theorem claim_C10 (df : List CleanRow) :
    (∀ p : String × Nat, p ∈ top_journals df → some p.1 ∈ df.map CleanRow.journal) ∧
    top_journals (df.filter (fun r => r.journal.isSome)) = top_journals df := by
  constructor
  · intro p hp
    have hp2 : p ∈ value_counts (journalsOf df) :=
      (List.take_sublist _ _).subset hp
    have hk : p.1 ∈ journalsOf df := by
      rw [← mem_value_counts_keys]
      exact List.mem_map.2 ⟨p, hp2, rfl⟩
    obtain ⟨r, hr, hrj⟩ := List.mem_filterMap.1 hk
    exact List.mem_map.2 ⟨r, hr, hrj⟩
  · unfold top_journals
    rw [journalsOf_filter]

/-- C10 witness: on a concrete table with an absent-journal record, the
top entry names journal A, which is present on a record. -/
theorem claim_C10_witness :
    some ("A", (2 : Nat)).1 ∈ dfSmall.map CleanRow.journal :=
  (claim_C10 dfSmall).1 ("A", 2) (by decide)

/-- A record with a present title, a three-word abstract and a parseable
publish_time. -/
def rawAbstract : RawRow :=
  { title := some "t", abstract := some "a b c", journal := none,
    publish_time := some "2020-03-01" }

/-- C2: every record retained by the Cleaner has a present title and a
present year, and the year-range filter preserves this invariant. -/
theorem claim_C2 (df : List RawRow) (lo hi : Int) (r : CleanRow)
    (h : r ∈ (Analysis.clean_data df).1 ∨
         r ∈ App.filterByYear lo hi (Analysis.clean_data df).1) :
    r.title.isSome ∧ r.year.isSome := by
  have hm : r ∈ (Analysis.clean_data df).1 := by
    rcases h with h | h
    · exact h
    · exact List.mem_of_mem_filter h
  unfold Analysis.clean_data at hm
  obtain ⟨s, hs, rfl⟩ := List.mem_map.1 hm
  have hkeep := List.of_mem_filter hs
  unfold hasTitleAndYear at hkeep
  simp only [Bool.and_eq_true] at hkeep
  exact ⟨hkeep.1, hkeep.2⟩

/-- C2 witness: the cleaned form of a concrete well-formed record has a
present title and year. -/
theorem claim_C2_witness :
    (addWordCount (deriveYear rawGoodDate)).title.isSome
      ∧ (addWordCount (deriveYear rawGoodDate)).year.isSome :=
  claim_C2 [rawGoodDate] 2020 2020 (addWordCount (deriveYear rawGoodDate))
    (Or.inl (by decide))

/-- C3: for every record the Cleaner retains, abstract_word_count equals
the whitespace token count of the abstract (0 for an absent abstract)
and is a total Nat, never an absent value. -/
theorem claim_C3 (df : List RawRow) (r : CleanRow)
    (h : r ∈ (Analysis.clean_data df).1) :
    r.abstract_word_count = wordCount (r.abstract.getD "") ∧
    (∀ s, r.abstract = some s →
      r.abstract_word_count = (pyTokens s.toList).length) ∧
    (r.abstract = none → r.abstract_word_count = 0) := by
  unfold Analysis.clean_data at h
  obtain ⟨s, _, rfl⟩ := List.mem_map.1 h
  refine ⟨rfl, ?_, ?_⟩
  · intro t ht
    show wordCount (s.abstract.getD "") = _
    rw [show (addWordCount s).abstract = s.abstract from rfl] at ht
    rw [ht]
    rfl
  · intro ht
    show wordCount (s.abstract.getD "") = 0
    rw [show (addWordCount s).abstract = s.abstract from rfl] at ht
    rw [ht]
    decide

/-- C3 witness: a concrete record whose abstract has the three tokens
a, b, c is cleaned to abstract_word_count 3. -/
theorem claim_C3_witness :
    ((addWordCount (deriveYear rawAbstract)).abstract_word_count
        = wordCount ((addWordCount (deriveYear rawAbstract)).abstract.getD "") ∧
      (∀ s, (addWordCount (deriveYear rawAbstract)).abstract = some s →
        (addWordCount (deriveYear rawAbstract)).abstract_word_count
          = (pyTokens s.toList).length) ∧
      ((addWordCount (deriveYear rawAbstract)).abstract = none →
        (addWordCount (deriveYear rawAbstract)).abstract_word_count = 0)) ∧
    (addWordCount (deriveYear rawAbstract)).abstract_word_count = 3 :=
  ⟨claim_C3 [rawAbstract] (addWordCount (deriveYear rawAbstract)) (by decide), by decide⟩

/-- C9: for every closed interval the slider can produce, a record whose
year is absent is excluded from the subset the app renders, for every
table the interactive load produces. -/
theorem claim_C9 (df : List RawRow) (lo hi : Int) (r : CleanRow)
    (h : r ∈ App.filterByYear lo hi (App.load_data df)) :
    r.year.isSome := by
  have hr := List.of_mem_filter h
  unfold App.yearInRange at hr
  cases hy : r.year with
  | none =>
    rw [hy] at hr
    simp at hr
  | some y =>
    rfl

/-- C9 witness: a concrete record inside a filtered subset has a present
year. -/
theorem claim_C9_witness :
    (addWordCount (deriveYear rawGoodDate)).year.isSome :=
  claim_C9 [rawGoodDate] 2019 2021 (addWordCount (deriveYear rawGoodDate)) (by decide)
